import Mathlib

/-!
Verification of the V LIVE extractor (youtube_dl/extractor/vlive.py).

The development shallowly embeds the extractor's logic: parsed page state is
modelled by a `Json` value type, the embedded-state marker search is modelled
character for character after the regular expression in the source, network
effects are made observable through a writer-style monad `W` that records the
endpoint calls an extraction performs, and Python exceptions become an
explicit error type `PyError`.  Helpers of the repository that live outside
the extractor file itself (the generic JSON/regex extraction helpers, the
format collaborator, format sorting) are modelled from the specification, as
marked on each such definition.
-/

/-- A parsed JSON document, as produced by the JSON layer for the embedded
page state and the endpoint responses.  Numbers are restricted to integers:
no field read by the extractor carries a fractional value. -/
inductive Json where
  | null : Json
  | bool (b : Bool) : Json
  | num (n : Int) : Json
  | str (s : String) : Json
  | arr (elems : List Json) : Json
  | obj (fields : List (String × Json)) : Json
deriving Repr

/-- Dictionary lookup on a parsed object.  The JSON layer keeps the last
binding of a duplicated key, so lookup prefers later fields. -/
def lookupField : List (String × Json) → String → Option Json
  | [], _ => none
  | (k, v) :: rest, key =>
    match lookupField rest key with
    | some w => some w
    | none => if k == key then some v else none

/-- Subscript-free dictionary access: `none` when the value is not an object
or the key is missing (the semantics of Python's `dict.get` composed with
`try_get`). -/
def jsonGet : Json → String → Option Json
  | Json.obj fields, key => lookupField fields key
  | _, _ => none

/-- Python truthiness of a parsed JSON value, as used by `if upcoming:` and
`if not video_id:` in the source. -/
def truthy : Json → Bool
  | Json.null => false
  | Json.bool b => b
  | Json.num n => !(n == 0)
  | Json.str s => !(s == "")
  | Json.arr elems => !elems.isEmpty
  | Json.obj fields => !fields.isEmpty

/-- Display of a parsed value under Python string conversion (`compat_str`,
`%s` formatting).  It is exact for scalar values (`None`, booleans,
integers, strings).  The two container arms are placeholders: Python would
produce the container's repr there, which depends on CPython's string-repr
quoting and Unicode printability rules and is not modelled; accordingly no
theorem below evaluates this function on a container — the claims that
reach a conversion site are stated over scalar values only. -/
def pyStr : Json → String
  | Json.null => "None"
  | Json.bool true => "True"
  | Json.bool false => "False"
  | Json.num n => toString n
  | Json.str s => s
  | Json.arr _ => "[...]"
  | Json.obj _ => "..."

/-- Equality test of a parsed value against a Python string literal, the
meaning of `vid_type == 'LIVE'` and of membership of `status` in a tuple of
string literals. -/
def jeq (j : Json) (s : String) : Bool :=
  match j with
  | Json.str t => t == s
  | _ => false

/-- Membership of a parsed value in a tuple of string literals. -/
def jmem (j : Json) (l : List String) : Bool :=
  l.any (fun s => jeq j s)

/-- Whitespace skipping of the JSON layer. -/
def skipWs : List Char → List Char
  | [] => []
  | c :: rest =>
    if c = ' ' ∨ c = '\t' ∨ c = '\n' ∨ c = '\r' then skipWs rest else c :: rest

/-- Consume an expected literal tail, returning the remaining characters. -/
def dropLit : List Char → List Char → Option (List Char)
  | [], s => some s
  | _ :: _, [] => none
  | a :: lit, b :: s => if a = b then dropLit lit s else none

/-- Body of a JSON string literal after the opening quote.  The common escape
sequences are handled; a raw control character ends the parse with failure,
as in the JSON layer. -/
def parseStringChars : List Char → Option (List Char × List Char)
  | [] => none
  | c :: rest =>
    if c = '"' then some ([], rest)
    else if c = '\\' then
      match rest with
      | [] => none
      | e :: rest2 =>
        let dec : Option Char :=
          if e = '"' then some '"'
          else if e = '\\' then some '\\'
          else if e = '/' then some '/'
          else if e = 'n' then some '\n'
          else if e = 't' then some '\t'
          else if e = 'r' then some '\r'
          else if e = 'b' then some (Char.ofNat 8)
          else if e = 'f' then some (Char.ofNat 12)
          else none
        match dec with
        | none => none
        | some d =>
          match parseStringChars rest2 with
          | some (cs, rem) => some (d :: cs, rem)
          | none => none
    else if c.toNat < 32 then none
    else
      match parseStringChars rest with
      | some (cs, rem) => some (c :: cs, rem)
      | none => none

/-- Longest digit run at the head of the input. -/
def parseDigits : List Char → (List Char × List Char)
  | [] => ([], [])
  | c :: rest =>
    if c.isDigit then
      let (ds, rem) := parseDigits rest
      (c :: ds, rem)
    else ([], c :: rest)

/-- Decimal value of a digit run. -/
def digitsToNat (ds : List Char) : Nat :=
  ds.foldl (fun acc c => acc * 10 + (c.toNat - 48)) 0

/-- Integer literal of the JSON layer (optional minus sign, digit run). -/
def parseNumberJson : List Char → Option (Json × List Char)
  | [] => none
  | c :: rest =>
    if c = '-' then
      match parseDigits rest with
      | ([], _) => none
      | (ds, rem) => some (Json.num (-(digitsToNat ds : Int)), rem)
    else if c.isDigit then
      match parseDigits (c :: rest) with
      | (ds, rem) => some (Json.num (digitsToNat ds : Int), rem)
    else none

/-- The opening brace character. -/
def lbrace : Char := Char.ofNat 123

/-- The closing brace character. -/
def rbrace : Char := Char.ofNat 125

mutual

/-- Modelled from the spec: the generic JSON extraction helper (`_parse_json`
and the JSON library behind it) is not among the sources; the specification
only requires that embedded state and endpoint responses "must be valid JSON
or extraction fails".  This is a standard recursive-descent value parser over
that grammar, fuelled for termination. -/
def parseValue : Nat → List Char → Option (Json × List Char)
  | 0, _ => none
  | Nat.succ f, s =>
    match skipWs s with
    | [] => none
    | c :: rest =>
      if c = '"' then
        match parseStringChars rest with
        | some (cs, rem) => some (Json.str (String.mk cs), rem)
        | none => none
      else if c = 'n' then
        match dropLit ['u', 'l', 'l'] rest with
        | some rem => some (Json.null, rem)
        | none => none
      else if c = 't' then
        match dropLit ['r', 'u', 'e'] rest with
        | some rem => some (Json.bool true, rem)
        | none => none
      else if c = 'f' then
        match dropLit ['a', 'l', 's', 'e'] rest with
        | some rem => some (Json.bool false, rem)
        | none => none
      else if c = '[' then
        match skipWs rest with
        | d :: rest2 =>
          if d = ']' then some (Json.arr [], rest2)
          else
            match parseElems f rest with
            | some (xs, rem) => some (Json.arr xs, rem)
            | none => none
        | [] => none
      else if c = lbrace then
        match skipWs rest with
        | d :: rest2 =>
          if d = rbrace then some (Json.obj [], rest2)
          else
            match parseMembers f rest with
            | some (ms, rem) => some (Json.obj ms, rem)
            | none => none
        | [] => none
      else parseNumberJson (c :: rest)

/-- Comma-separated array elements up to the closing bracket. -/
def parseElems : Nat → List Char → Option (List Json × List Char)
  | 0, _ => none
  | Nat.succ f, s =>
    match parseValue f s with
    | none => none
    | some (j, rem) =>
      match skipWs rem with
      | [] => none
      | c :: rest =>
        if c = ',' then
          match parseElems f rest with
          | some (xs, rem2) => some (j :: xs, rem2)
          | none => none
        else if c = ']' then some ([j], rest)
        else none

/-- Comma-separated object members up to the closing brace. -/
def parseMembers : Nat → List Char → Option (List (String × Json) × List Char)
  | 0, _ => none
  | Nat.succ f, s =>
    match skipWs s with
    | [] => none
    | c :: rest =>
      if c = '"' then
        match parseStringChars rest with
        | none => none
        | some (k, rem) =>
          match skipWs rem with
          | [] => none
          | d :: rest2 =>
            if d = ':' then
              match parseValue f rest2 with
              | none => none
              | some (v, rem2) =>
                match skipWs rem2 with
                | [] => none
                | e :: rest3 =>
                  if e = ',' then
                    match parseMembers f rest3 with
                    | some (ms, rem3) => some ((String.mk k, v) :: ms, rem3)
                    | none => none
                  else if e = rbrace then some ([(String.mk k, v)], rest3)
                  else none
            else none
      else none

end

/-- Modelled from the spec: whole-input JSON parsing ("must be valid JSON or
extraction fails").  Trailing non-whitespace rejects the document. -/
def parseJson (s : String) : Option Json :=
  match parseValue (2 * s.length + 4) s.data with
  | some (j, rem) => if skipWs rem = [] then some j else none
  | none => none

/-- Characters of the literal part of the preload-state marker pattern
`>window\.__PRELOADED_STATE__=({.+})</script>` from the source. -/
def preloadLit : List Char := ">window.__PRELOADED_STATE__=".data

/-- Characters of the closing literal of the marker pattern. -/
def closeLit : List Char := "</script>".data

/-- Does the span `body.take j` serve as the `.+` group body: nonempty, free
of newlines, and followed by the closing brace and `</script>`? -/
def goodMid (body : List Char) (j : Nat) : Bool :=
  decide (1 ≤ j) && (body.take j).all (fun c => !(c = '\n')) &&
    match body.drop j with
    | c :: rest => c = rbrace && (dropLit closeLit rest).isSome
    | [] => false

/-- Greedy extent of the `.+` group: the largest body length accepted by
`goodMid`, matching the backtracking behaviour of a greedy `.+`. -/
def findGreedy (body : List Char) : Option Nat :=
  ((List.range (body.length + 1)).reverse).find? (goodMid body)

/-- Attempt of the marker pattern at one starting offset of the page text:
the literal prefix, an opening brace, the greedy group, the closing brace
and the closing literal. -/
def matchPreloadAt (s : List Char) (i : Nat) : Option String :=
  match dropLit preloadLit (s.drop i) with
  | none => none
  | some rest =>
    match rest with
    | [] => none
    | c :: body =>
      if c = lbrace then
        match findGreedy body with
        | some j => some (String.mk (lbrace :: (body.take j ++ [rbrace])))
        | none => none
      else none

/-- Every offset of the page text at which the marker pattern matches,
with the text of its capture group. -/
def preloadMatches (w : String) : List String :=
  (List.range (w.data.length + 1)).filterMap (fun i => matchPreloadAt w.data i)

/-- Python exceptions reaching the caller of the extractor, as an explicit
error type.  `parseError` is the spec's ParseError naming a missing page
field; `jsonParseError` is a JSON-layer failure on an endpoint response;
`keyError` and `typeError` are the bare Python exceptions raised by
subscripting a parsed document; `extractorError` carries the message and
`expected` flag of an `ExtractorError`. -/
inductive PyError where
  | parseError (field : String) : PyError
  | jsonParseError (videoId : String) : PyError
  | keyError (key : String) : PyError
  | typeError : PyError
  | nameError : PyError
  | extractorError (msg : String) (expected : Bool) : PyError
deriving Repr, DecidableEq

deriving instance DecidableEq for Except

/-- The spec's ParseError taxonomy (section 7): malformed documents and
missing expected fields.  Authentication, lifecycle-status and catch-all
errors are outside it. -/
def isParseError : PyError → Bool
  | PyError.parseError _ => true
  | PyError.jsonParseError _ => true
  | PyError.keyError _ => true
  | PyError.typeError => true
  | PyError.nameError => false
  | PyError.extractorError _ _ => false

/-- One observable network round-trip of the extractor. -/
inductive NetCall where
  | pageFetch (videoId : String) : NetCall
  | keyFetch (videoId : String) : NetCall
  | liveFetch (videoId : String) : NetCall
  | formatExtract (videoId : String) : NetCall
  | loginCookieFetch : NetCall
  | loginPost : NetCall
  | loginInfoFetch : NetCall
  | playlistPageFetch (playlistId : String) : NetCall
deriving Repr, DecidableEq

/-- Result of a fallible extraction step together with the network calls it
performed.  Errors keep the calls made before the raise. -/
structure W (α : Type) where
  res : Except PyError α
  calls : List NetCall
deriving Repr

/-- Sequencing of extraction steps: calls concatenate, errors cut the run
short. -/
def W.bind {α β : Type} (x : W α) (f : α → W β) : W β :=
  match x with
  | ⟨Except.ok a, t⟩ => ⟨(f a).res, t ++ (f a).calls⟩
  | ⟨Except.error e, t⟩ => ⟨Except.error e, t⟩

instance : Monad W where
  pure a := ⟨Except.ok a, []⟩
  bind := W.bind

/-- Record a network call. -/
def W.call (c : NetCall) : W Unit := ⟨Except.ok (), [c]⟩

/-- Raise a Python exception. -/
def W.raise {α : Type} (e : PyError) : W α := ⟨Except.error e, []⟩

/-- Lift a pure fallible computation: no network call. -/
def liftE {α : Type} (x : Except PyError α) : W α := ⟨x, []⟩

@[simp] theorem monadBind_eq_bind {α β : Type} (x : W α) (f : α → W β) :
    (x >>= f) = W.bind x f := rfl

@[simp] theorem monadPure_eq {α : Type} (a : α) :
    (pure a : W α) = ⟨Except.ok a, []⟩ := rfl

@[simp] theorem bind_ok {α β : Type} (a : α) (t : List NetCall) (f : α → W β) :
    W.bind ⟨Except.ok a, t⟩ f = ⟨(f a).res, t ++ (f a).calls⟩ := rfl

@[simp] theorem bind_err {α β : Type} (e : PyError) (t : List NetCall) (f : α → W β) :
    W.bind ⟨Except.error e, t⟩ f = ⟨Except.error e, t⟩ := rfl

@[simp] theorem liftE_def {α : Type} (x : Except PyError α) : liftE x = ⟨x, []⟩ := rfl

@[simp] theorem wcall_def (c : NetCall) : W.call c = ⟨Except.ok (), [c]⟩ := rfl

@[simp] theorem wraise_def {α : Type} (e : PyError) : W.raise (α := α) e = ⟨Except.error e, []⟩ := rfl

/-- Python subscripting `value[key]` on a parsed document: `KeyError` when
the key is missing, `TypeError` when the value is not a dictionary. -/
def getFieldE (j : Json) (key : String) : Except PyError Json :=
  match j with
  | Json.obj fields =>
    match lookupField fields key with
    | some v => Except.ok v
    | none => Except.error (PyError.keyError key)
  | _ => Except.error (PyError.typeError)

/-- Chained subscripting `value[k1][k2]...` on a parsed document. -/
def readPath (j : Json) : List String → Except PyError Json
  | [] => Except.ok j
  | k :: ks =>
    match getFieldE j k with
    | Except.ok v => readPath v ks
    | Except.error e => Except.error e

/-- Python `dict.get(key, default)` on a parsed document: `TypeError`-like
failure when the value is not a dictionary (an `AttributeError` in Python,
folded into `typeError` here). -/
def pyDictGetE (j : Json) (key : String) (dflt : Json) : Except PyError Json :=
  match j with
  | Json.obj fields =>
    match lookupField fields key with
    | some v => Except.ok v
    | none => Except.ok dflt
  | _ => Except.error (PyError.typeError)

/-- Iterating a parsed document as Python `for` does: only lists iterate in
the extractor; any other value is rejected. -/
def expectArrE (j : Json) : Except PyError (List Json) :=
  match j with
  | Json.arr elems => Except.ok elems
  | _ => Except.error (PyError.typeError)

/-- String expectation, for values Python concatenates with a string literal
or passes as a URL: non-strings raise `TypeError`. -/
def expectStrE (j : Json) : Except PyError String :=
  match j with
  | Json.str s => Except.ok s
  | _ => Except.error (PyError.typeError)

/-- The well-formedness condition of the Page State Parser: the marker
pattern appears exactly once in the page text and its capture group is
well-formed JSON, in which case this is the parsed document. -/
def markerParsed (w : String) : Option Json :=
  match preloadMatches w with
  | [g] => parseJson g
  | _ => none

/-- Modelled from the spec: the page-state extraction helpers
(`_search_regex` and `_parse_json` of the shared base extractor) are not
among the sources.  Section 4.1 of the spec gives their composed contract:
the marker pattern must appear exactly once and be well-formed JSON, in
which case the parsed document is returned; otherwise the parser fails with
a ParseError naming the missing field "preload state".  The marker pattern
itself is taken verbatim from the source (`preloadMatches`). -/
def getPreloadState (webpage : String) : Except PyError Json :=
  match markerParsed webpage with
  | some j => Except.ok j
  | none => Except.error (PyError.parseError "preload state")

/-- JSON parsing of an endpoint response body (`self._parse_json(body,
video_id)`), failing with the JSON-layer error carrying the video id. -/
def parseJsonE (body : String) (videoId : String) : Except PyError Json :=
  match parseJson body with
  | some j => Except.ok j
  | none => Except.error (PyError.jsonParseError videoId)

/-- Path of the `upcomingYn` flag inside the preload state (source line
112). -/
def upcomingPath : List String := ["postDetail", "post", "officialVideo", "upcomingYn"]

/-- Path of the `type` tag inside the preload state (source line 113). -/
def typePath : List String := ["postDetail", "post", "officialVideo", "type"]

/-- Path of the long-form video id inside the preload state (source line
157). -/
def vodIdPath : List String := ["postDetail", "post", "officialVideo", "vodId"]

/-- The status tags dispatched to the Live strategy (source line 130). -/
def liveStatuses : List String := ["LIVE_ON_AIR", "BIG_EVENT_ON_AIR", "LIVE"]

/-- The status tags dispatched to the Replay strategy (source line 132). -/
def vodStatuses : List String := ["VOD_ON_AIR", "BIG_EVENT_INTRO", "VOD"]

/-- The status resolver of source lines 115-121: a `LIVE` type splits on the
`upcomingYn` flag, every other type value passes through verbatim. -/
def resolveStatus (vidType upcoming : Json) : Json :=
  if jeq vidType "LIVE" then
    if truthy upcoming then Json.str "UPCOMING" else vidType
  else vidType

/-- The terminal-status dispatch of source lines 135-147, mapping each
non-playable status to the `ExtractorError` the source raises there. -/
def terminalError (status : Json) : PyError :=
  if jeq status "LIVE_END" then
    PyError.extractorError "Uploading for replay. Please wait..." true
  else if jmem status ["COMING_SOON", "UPCOMING"] then
    PyError.extractorError "Coming soon!" true
  else if jeq status "CANCELED" then
    PyError.extractorError "We are sorry, but the live broadcast has been canceled." true
  else if jeq status "ONLY_APP" then
    PyError.extractorError "Unsupported video type" true
  else
    PyError.extractorError ("Unknown status " ++ pyStr status) false

/-- One downloadable format descriptor.  The fields are those the claims
observe; their values come from the modelled format collaborators. -/
structure Format where
  url : String
  height : Int
deriving Repr, DecidableEq

/-- Insertion step of the format ordering. -/
def insertFormat (f : Format) : List Format → List Format
  | [] => [f]
  | g :: rest =>
    if f.height ≤ g.height then f :: g :: rest else g :: insertFormat f rest

/-- Modelled from the spec: `_sort_formats` of the shared base extractor is
not among the sources; section 4.3 requires the Live strategy to "sort by a
fixed quality ordering" and section 8 states that an empty final format list
is "not an error at this layer".  A stable insertion sort on the quality
field realises that contract. -/
def sortFormats : List Format → List Format
  | [] => []
  | f :: rest => insertFormat f (sortFormats rest)

/-- The subtitle tracks of a replay, an opaque payload of the format
collaborator. -/
abbrev Subtitles := List (String × String)

/-- The normalized output of a single-video extraction (title, creator,
thumbnail, formats, live flag), as assembled by `_live` and `_replay`. -/
structure VideoDescriptor where
  id : String
  title : String
  creator : Json
  thumbnail : Json
  formats : List Format
  is_live : Bool
  subtitles : Subtitles
deriving Repr

/-- The environment of one single-video extraction: the page text and what
each endpoint the extractor may call would answer.  `m3u8` is the modelled
external manifest expander (one list of formats per service URL, `none` for
an entry whose extraction fails); `replayFormats`/`replaySubtitles` are the
modelled answer of the external format collaborator of section 4.4. -/
structure Inputs where
  webpage : String
  keyResponse : String
  liveResponse : String
  m3u8 : String → Option (List Format)
  replayFormats : List Format
  replaySubtitles : Subtitles

/-- The common descriptor fields of source lines 149-154, read from the
preload state in source order; the title is prefixed with the fixed literal
tag. -/
structure CommonFields where
  title : String
  creator : Json
  thumb : Json
deriving Repr

/-- Assembly of the common fields (`_get_common_fields`). -/
def commonFieldsE (preload : Json) : Except PyError CommonFields :=
  match readPath preload ["postDetail", "post", "title"] with
  | Except.error e => Except.error e
  | Except.ok t =>
    match expectStrE t with
    | Except.error e => Except.error e
    | Except.ok ts =>
      match readPath preload ["channel", "channel", "channelName"] with
      | Except.error e => Except.error e
      | Except.ok c =>
        match readPath preload ["postDetail", "post", "officialVideo", "thumb"] with
        | Except.error e => Except.error e
        | Except.ok th => Except.ok ⟨"[V LIVE] " ++ ts, c, th⟩

/-- The per-entry aggregation loop of `_live` (source lines 170-175): each
stream entry's `serviceUrl` is subscripted (fatal on absence), the external
manifest expansion is non-fatal (a failed entry contributes no formats), and
the per-entry format lists are concatenated in page order. -/
def collectLiveFormatsE (m3u8 : String → Option (List Format)) :
    List Json → Except PyError (List Format)
  | [] => Except.ok []
  | v :: rest =>
    match getFieldE v "serviceUrl" with
    | Except.error e => Except.error e
    | Except.ok su =>
      match expectStrE su with
      | Except.error e => Except.error e
      | Except.ok u =>
        match collectLiveFormatsE m3u8 rest with
        | Except.error e => Except.error e
        | Except.ok fs => Except.ok (((m3u8 u).getD []) ++ fs)

/-- The network-free part of the Live strategy (source lines 168-184): parse
the play-info response, read `result`, default `streamList` to the empty
list, aggregate the per-entry formats, sort them, and assemble the
descriptor with the common fields and the live flag. -/
def liveBodyE (inp : Inputs) (videoId : String) (preload : Json) :
    Except PyError VideoDescriptor :=
  match parseJsonE inp.liveResponse videoId with
  | Except.error e => Except.error e
  | Except.ok lj =>
    match getFieldE lj "result" with
    | Except.error e => Except.error e
    | Except.ok r =>
      match pyDictGetE r "streamList" (Json.arr []) with
      | Except.error e => Except.error e
      | Except.ok sl =>
        match expectArrE sl with
        | Except.error e => Except.error e
        | Except.ok entries =>
          match collectLiveFormatsE inp.m3u8 entries with
          | Except.error e => Except.error e
          | Except.ok fmts =>
            match commonFieldsE preload with
            | Except.error e => Except.error e
            | Except.ok cf =>
              Except.ok ⟨videoId, cf.title, cf.creator, cf.thumb, sortFormats fmts, true, []⟩

/-- The Live strategy `_live`: one play-info fetch, then the network-free
body. -/
def liveExtract (inp : Inputs) (videoId : String) (preload : Json) :
    W VideoDescriptor := do
  W.call (NetCall.liveFetch videoId)
  liftE (liveBodyE inp videoId preload)

/-- The network-free preliminaries of `_replay` (source lines 156-159): the
long-form video id subscript chain and the common fields, in source
evaluation order. -/
def replayBodyE (preload : Json) : Except PyError CommonFields :=
  match readPath preload vodIdPath with
  | Except.error e => Except.error e
  | Except.ok _ => commonFieldsE preload

/-- The descriptor a replay resolution returns: common fields merged with
the answer of the external format collaborator (modelled from the spec,
section 4.4: formats plus subtitle tracks for the finished, non-live
video). -/
def replayDescriptor (inp : Inputs) (videoId : String) (cf : CommonFields) :
    VideoDescriptor :=
  ⟨videoId, cf.title, cf.creator, cf.thumb, inp.replayFormats, false, inp.replaySubtitles⟩

/-- The Replay strategy `_replay` (source lines 156-160): the preliminaries,
then one call of the external format collaborator. -/
def replayExtract (inp : Inputs) (videoId : String) (preload : Json)
    (_key : Json) : W VideoDescriptor := do
  let cf ← liftE (replayBodyE preload)
  W.call (NetCall.formatExtract videoId)
  pure (replayDescriptor inp videoId cf)

/-- The network-free preliminaries of `_real_extract` (source lines
104-113): page-state extraction and the two field subscript chains, in
source order. -/
def preBodyE (webpage : String) : Except PyError (Json × Json × Json) :=
  match getPreloadState webpage with
  | Except.error e => Except.error e
  | Except.ok pj =>
    match readPath pj upcomingPath with
    | Except.error e => Except.error e
    | Except.ok u =>
      match readPath pj typePath with
      | Except.error e => Except.error e
      | Except.ok t => Except.ok (pj, u, t)

/-- The decryption-key step of source lines 122-128: parse the key endpoint
response and subscript its `inkey` field. -/
def keyBodyE (keyResponse : String) (videoId : String) : Except PyError Json :=
  match parseJsonE keyResponse videoId with
  | Except.error e => Except.error e
  | Except.ok kj => getFieldE kj "inkey"

/-- The single-video extraction `_real_extract` (source lines 98-147): fetch
the page, extract the preload state and the two status fields, compute the
status, fetch and read the decryption key whenever the type is not `LIVE`,
then dispatch on the status to the Live strategy, the Replay strategy, or a
terminal error. -/
def realExtract (inp : Inputs) (videoId : String) : W VideoDescriptor := do
  W.call (NetCall.pageFetch videoId)
  let pre ← liftE (preBodyE inp.webpage)
  let status := resolveStatus pre.2.2 pre.2.1
  let key ← if jeq pre.2.2 "LIVE" then pure Option.none else do
    W.call (NetCall.keyFetch videoId)
    let k ← liftE (keyBodyE inp.keyResponse videoId)
    pure (Option.some k)
  if jmem status liveStatuses then liveExtract inp videoId pre.1
  else if jmem status vodStatuses then
    match key with
    | Option.some k => replayExtract inp videoId pre.1 k
    | Option.none => W.raise PyError.nameError
  else W.raise (terminalError status)

/-- An `url_result` entry: a pointer at a single video to be resolved by
the single-video extractor. -/
structure UrlResult where
  url : String
  videoId : String
deriving Repr, DecidableEq

/-- The video URL template shared by the channel, playlist and post
extractors. -/
def mkVideoUrlResult (videoId : String) : UrlResult :=
  ⟨"http://www.vlive.tv/video/" ++ videoId, videoId⟩

/-- The `try_get(video_list, lambda x: x['result']['videoList'], list)` read
of the channel page: the value at the path if it is a list, `none`
otherwise (every exception is swallowed by `try_get`). -/
def tryGetVideoList (j : Json) : Option (List Json) :=
  match jsonGet j "result" with
  | some r =>
    match jsonGet r "videoList" with
    | some (Json.arr xs) => some xs
    | _ => none
  | none => none

/-- The `try_get(..., lambda x: x['result']['channelInfo']['channelName'],
compat_str)` read of the channel page. -/
def tryGetChannelName (j : Json) : Option String :=
  match jsonGet j "result" with
  | some r =>
    match jsonGet r "channelInfo" with
    | some ci =>
      match jsonGet ci "channelName" with
      | some (Json.str s) => some s
      | _ => none
    | none => none
  | none => none

/-- Python truthiness of the running `channel_name` variable (starts as
`None`, may be replaced by a fetched string). -/
def truthyName : Option String → Bool
  | none => false
  | some s => !(s == "")

/-- Is a parsed value a dictionary?  Only on dictionaries does Python's
`video.get('videoSeq')` succeed; any other item raises `AttributeError`. -/
def isDict : Json → Bool
  | Json.obj _ => true
  | _ => false

/-- Is a parsed value a scalar (`None`, boolean, integer, string)?  These
are exactly the values the string conversion `pyStr` renders exactly. -/
def isScalar : Json → Bool
  | Json.arr _ => false
  | Json.obj _ => false
  | _ => true

/-- The per-page entry loop of the channel extractor (source lines 274-282):
each raw item's `videoSeq` is read with `video.get('videoSeq')` — on a
non-dictionary item that raises `AttributeError` (folded into `typeError`,
as for `pyDictGetE`) and aborts the extraction; an absent or falsy value
skips the item; otherwise the stringified id becomes one `url_result`
entry, in page order. -/
def processVideosE : List Json → Except PyError (List UrlResult)
  | [] => Except.ok []
  | v :: vs =>
    match pyDictGetE v "videoSeq" Json.null with
    | Except.error e => Except.error e
    | Except.ok sq =>
      match processVideosE vs with
      | Except.error e => Except.error e
      | Except.ok rest =>
        Except.ok (if truthy sq then mkVideoUrlResult (pyStr sq) :: rest else rest)

/-- Does a fetched channel page stop the pagination loop?  The source breaks
when the `try_get` list read yields nothing or an empty list (`if not
videos: break`). -/
def isEmptyPage (page : Json) : Bool :=
  match tryGetVideoList page with
  | none => true
  | some [] => true
  | some (_ :: _) => false

/-- The channel pagination loop of source lines 245-285, fuelled: `pages`
maps a page number to the parsed response of the channel-video-list
endpoint, `fuel` bounds the number of iterations still permitted (`none`
means the loop was still running when the fuel ran out), and the
accumulators carry the channel name and the entries gathered so far.  A
Python exception inside the per-page entry loop (a non-dictionary item)
aborts the whole listing with that error. -/
def channelLoop (pages : Nat → Json) :
    Nat → Nat → Option String → List UrlResult →
    Option (Except PyError (Option String × List UrlResult))
  | 0, _, _, _ => none
  | Nat.succ fuel, pageNum, chName, entries =>
    let vl := pages pageNum
    let chName := if truthyName chName then chName else tryGetChannelName vl
    match tryGetVideoList vl with
    | none => some (Except.ok (chName, entries))
    | some [] => some (Except.ok (chName, entries))
    | some (v :: vs) =>
      match processVideosE (v :: vs) with
      | Except.error e => some (Except.error e)
      | Except.ok newEntries =>
        channelLoop pages fuel (pageNum + 1) chName (entries ++ newEntries)

/-- The outcome of a playlist-URL extraction: either exactly one descriptor
pointing at the anchor video, or a playlist of entries. -/
inductive PlaylistOutcome where
  | single (r : UrlResult) : PlaylistOutcome
  | playlist (id : String) (title : Option String) (entries : List UrlResult) :
      PlaylistOutcome
deriving Repr, DecidableEq

/-- Characters of the literal head of the playlist pattern
`playlistVideoSeqs\s*=\s*(\[[^]]+\])` from the source. -/
def playlistSeqsLit : List Char := "playlistVideoSeqs".data

/-- A character of the `\s` class. -/
def isSpaceChar (c : Char) : Bool :=
  c = ' ' || c = '\t' || c = '\n' || c = '\r' || c = Char.ofNat 11 || c = Char.ofNat 12

/-- Longest `\s*` run at the head of the input. -/
def dropSpaces : List Char → List Char
  | [] => []
  | c :: rest => if isSpaceChar c then dropSpaces rest else c :: rest

/-- Longest `[^]]+` run at the head of the input. -/
def takeNonBracket : List Char → (List Char × List Char)
  | [] => ([], [])
  | c :: rest =>
    if c = ']' then ([], c :: rest)
    else
      let (t, rem) := takeNonBracket rest
      (c :: t, rem)

/-- Attempt of the playlist pattern at one starting offset: the literal,
optional whitespace, `=`, optional whitespace, and the bracketed capture
group with a nonempty bracket-free body. -/
def matchSeqsAt (s : List Char) (i : Nat) : Option String :=
  match dropLit playlistSeqsLit (s.drop i) with
  | none => none
  | some rest =>
    match dropSpaces rest with
    | '=' :: rest2 =>
      match dropSpaces rest2 with
      | '[' :: rest3 =>
        match takeNonBracket rest3 with
        | ([], _) => none
        | (body, rem) =>
          match rem with
          | ']' :: _ => some (String.mk ('[' :: (body ++ [']'])))
          | _ => none
      | _ => none
    | _ => none

/-- Modelled from the spec: the generic regex extraction helper
(`_search_regex` with `default=None`) is not among the sources; it is the
leftmost match of the pattern, or `none` when the pattern matches nowhere.
The pattern itself is taken verbatim from the source (`matchSeqsAt`). -/
def searchPlaylistSeqs (w : String) : Option String :=
  (List.range (w.data.length + 1)).findSome? (fun i => matchSeqsAt w.data i)

/-- The `_build_video_result` degradation of the playlist extractor (source
lines 315-319): exactly one descriptor pointing at the anchor video of the
URL. -/
def buildVideoResult (videoId : String) : PlaylistOutcome :=
  PlaylistOutcome.single (mkVideoUrlResult videoId)

/-- The playlist extraction `VLivePlaylistIE._real_extract` (source lines
321-361).  `noplaylist` is the caller's "resolve single item" toggle;
`multicamTitle` is the answer of the non-fatal playlist-title regex helper
(modelled from the spec as an opaque collaborator: the C5 path returns
before it is consulted); `webpage` is the fetched playlist page. -/
def playlistExtract (noplaylist : Bool) (webpage : String)
    (multicamTitle : Option String) (videoId playlistId : String) :
    W PlaylistOutcome := do
  if noplaylist then
    pure (buildVideoResult videoId)
  else do
    W.call (NetCall.playlistPageFetch playlistId)
    match searchPlaylistSeqs webpage with
    | none => pure (buildVideoResult videoId)
    | some raw => do
      let itemIds ← liftE (parseJsonE raw playlistId)
      let ids ← liftE (expectArrE itemIds)
      pure (PlaylistOutcome.playlist playlistId multicamTitle
        (ids.map (fun j => mkVideoUrlResult (pyStr j))))

/-- The `is_logged_in` verification read of source lines 75-81:
`try_get(login_info, lambda x: x['message']['login'], bool) or False`,
then used as a Python condition. -/
def loggedInOf (j : Json) : Bool :=
  match jsonGet j "message" with
  | some m =>
    match jsonGet m "login" with
    | some (Json.bool b) => b
    | _ => false
  | none => false

/-- The login step `_login` (source lines 70-96): a no-op when either
credential is absent; otherwise the cookie fetch, the credential POST and
the verification fetch, raising the authentication error exactly when the
verification response does not report a logged-in session.
`loginInfoResponse` is the parsed answer of the login-info endpoint. -/
def loginStep (email password : Option String) (loginInfoResponse : Json) :
    W Unit :=
  match email, password with
  | Option.some _, Option.some _ => do
    W.call NetCall.loginCookieFetch
    W.call NetCall.loginPost
    W.call NetCall.loginInfoFetch
    if loggedInOf loginInfoResponse then pure ()
    else W.raise (PyError.extractorError "Unable to log in" true)
  | _, _ => pure ()

/-- Is a recorded call the decryption-key fetch? -/
def isKeyFetch : NetCall → Bool
  | NetCall.keyFetch _ => true
  | _ => false

/-- Is a recorded call the format-collaborator invocation? -/
def isFormatCall : NetCall → Bool
  | NetCall.formatExtract _ => true
  | _ => false

/-- Number of decryption-key fetches in a trace. -/
def countKey : List NetCall → Nat
  | [] => 0
  | c :: rest => (if isKeyFetch c then 1 else 0) + countKey rest

/-- Each format-collaborator call in the trace is preceded (somewhere
earlier in the trace) by a decryption-key fetch; `seenKey` records whether
one has already gone by. -/
def keyBefore (seenKey : Bool) : List NetCall → Bool
  | [] => true
  | c :: rest =>
    if isFormatCall c then seenKey && keyBefore seenKey rest
    else keyBefore (seenKey || isKeyFetch c) rest

/-- Does a run of the single-video extractor reach the decryption-key
fetch?  True exactly when the page preliminaries succeed and the type field
is not the string `LIVE`. -/
def keyFetchExpected (inp : Inputs) : Bool :=
  match preBodyE inp.webpage with
  | Except.error _ => false
  | Except.ok (_, _, t) => !(jeq t "LIVE")

theorem jeq_str_false {s lit : String} (h : s ≠ lit) : jeq (Json.str s) lit = false := by
  simp only [jeq, beq_eq_false_iff_ne, ne_eq]
  exact h

theorem jeq_false_of_ne {t : Json} {lit : String} (h : t ≠ Json.str lit) :
    jeq t lit = false := by
  cases t with
  | str s =>
    apply jeq_str_false
    intro hs
    exact h (by rw [hs])
  | null => rfl
  | bool b => rfl
  | num n => rfl
  | arr l => rfl
  | obj l => rfl

/-- C1: for every PreloadState whose officialVideo.type equals "LIVE", the
computed VideoStatus is UPCOMING if and only if upcomingYn is true (truthy,
as the source tests it) and is LIVE otherwise; for every other type value
the computed VideoStatus equals that type value verbatim. -/
theorem claim_C1 (t u : Json) :
    (t = Json.str "LIVE" →
      ((resolveStatus t u = Json.str "UPCOMING") ↔ truthy u = true) ∧
      (truthy u = false → resolveStatus t u = Json.str "LIVE")) ∧
    (t ≠ Json.str "LIVE" → resolveStatus t u = t) := by
  constructor
  · intro ht
    subst ht
    constructor
    · cases hu : truthy u <;> simp [resolveStatus, jeq, hu]
    · intro hu
      simp [resolveStatus, jeq, hu]
  · intro ht
    simp [resolveStatus, jeq_false_of_ne ht]

theorem claim_C1_witness :
    resolveStatus (Json.str "LIVE") (Json.bool true) = Json.str "UPCOMING" ∧
    resolveStatus (Json.str "LIVE") (Json.bool false) = Json.str "LIVE" ∧
    resolveStatus (Json.str "VOD") (Json.bool true) = Json.str "VOD" :=
  ⟨((claim_C1 (Json.str "LIVE") (Json.bool true)).1 rfl).1.mpr rfl,
   ((claim_C1 (Json.str "LIVE") (Json.bool false)).1 rfl).2 rfl,
   (claim_C1 (Json.str "VOD") (Json.bool true)).2
     (by intro h; injection h with h2; exact absurd h2 (by decide))⟩

/-- C5: for every playlist URL whose fetched page contains an empty or
absent internal item-id list (no playlistVideoSeqs match — an empty literal
list cannot match the pattern, whose capture body is nonempty), playlist
extraction returns exactly one descriptor, the anchor video identified by
the video id in the URL, whatever the noplaylist toggle says. -/
theorem claim_C5 (np : Bool) (w : String) (mt : Option String) (vid pid : String)
    (h : searchPlaylistSeqs w = none) :
    (playlistExtract np w mt vid pid).res =
      Except.ok (PlaylistOutcome.single (mkVideoUrlResult vid)) := by
  cases np <;> simp [playlistExtract, h, buildVideoResult]

theorem claim_C5_witness :
    (playlistExtract false "window.playlist = nothing;" none "22867" "22912").res =
      Except.ok (PlaylistOutcome.single (mkVideoUrlResult "22867")) ∧
    (playlistExtract false "var playlistVideoSeqs = [];" none "22867" "22912").res =
      Except.ok (PlaylistOutcome.single (mkVideoUrlResult "22867")) :=
  ⟨claim_C5 false "window.playlist = nothing;" none "22867" "22912" rfl,
   claim_C5 false "var playlistVideoSeqs = [];" none "22867" "22912" rfl⟩

/-- Does a raw channel-page item carry a truthy `videoSeq` field? -/
def carriesVideoSeq (v : Json) : Bool :=
  match jsonGet v "videoSeq" with
  | some sq => truthy sq
  | none => false

theorem processVideosE_eq_of_dict :
    ∀ (videos : List Json), (∀ v ∈ videos, isDict v = true) →
      processVideosE videos =
        Except.ok ((videos.filter (fun v => carriesVideoSeq v)).map
          (fun v => mkVideoUrlResult (pyStr ((jsonGet v "videoSeq").getD Json.null))))
  | [], _ => rfl
  | v :: vs, hdict => by
    have hv : isDict v = true := hdict v (by simp)
    have ih := processVideosE_eq_of_dict vs (fun w hw => hdict w (by simp [hw]))
    cases v with
    | obj fields =>
      cases hl : lookupField fields "videoSeq" with
      | none =>
        simp [processVideosE, pyDictGetE, hl, ih, carriesVideoSeq, jsonGet,
          truthy, List.filter_cons]
      | some sq =>
        cases hsq : truthy sq <;>
          simp [processVideosE, pyDictGetE, hl, ih, carriesVideoSeq, jsonGet,
            hsq, List.filter_cons]
    | null => simp [isDict] at hv
    | bool b => simp [isDict] at hv
    | num n => simp [isDict] at hv
    | str s => simp [isDict] at hv
    | arr l => simp [isDict] at hv

/-- C9: during channel-listing aggregation over a page of dictionary items
(the only items on which the source's `video.get('videoSeq')` read succeeds
rather than raising `AttributeError`) whose videoSeq values are scalars
(the values the embedded string conversion renders exactly; the site's ids
are numbers), every item whose videoSeq field is absent or falsy is
silently skipped and the loop succeeds: the page yields exactly one
`url_result` per item carrying a truthy videoSeq, in page order, rather
than one entry per raw page item. -/
theorem claim_C9 (videos : List Json)
    (hdict : ∀ v ∈ videos, isDict v = true)
    (_hscalar : ∀ v ∈ videos, isScalar ((jsonGet v "videoSeq").getD Json.null) = true) :
    processVideosE videos =
      Except.ok ((videos.filter (fun v => carriesVideoSeq v)).map
        (fun v => mkVideoUrlResult (pyStr ((jsonGet v "videoSeq").getD Json.null)))) ∧
    (videos.filter (fun v => carriesVideoSeq v)).length ≤ videos.length :=
  ⟨processVideosE_eq_of_dict videos hdict, List.length_filter_le _ _⟩

/-- A channel page mixing items with truthy, falsy and absent videoSeq
values. -/
def c9Videos : List Json :=
  [Json.obj [("videoSeq", Json.num 7)],
   Json.obj [("videoSeq", Json.num 0)],
   Json.obj [("other", Json.num 1)],
   Json.obj [("videoSeq", Json.str "")],
   Json.obj [("videoSeq", Json.num 8)]]

theorem claim_C9_witness :
    processVideosE c9Videos =
      Except.ok ((c9Videos.filter (fun v => carriesVideoSeq v)).map
        (fun v => mkVideoUrlResult (pyStr ((jsonGet v "videoSeq").getD Json.null)))) ∧
    processVideosE c9Videos =
      Except.ok [mkVideoUrlResult "7", mkVideoUrlResult "8"] :=
  ⟨(claim_C9 c9Videos (by decide) (by decide)).1, by rfl⟩

/-- C10: when either credential is absent the login step is a pure no-op
(no network call, no error); when both are present it performs the three
login round-trips and raises the authentication error exactly when the
verification response does not report a logged-in session. -/
theorem claim_C10 (email password : Option String) (resp : Json) :
    ((email = none ∨ password = none) →
      loginStep email password resp = ⟨Except.ok (), []⟩) ∧
    (∀ e p, email = some e → password = some p →
      loginStep email password resp =
        ⟨if loggedInOf resp then Except.ok ()
          else Except.error (PyError.extractorError "Unable to log in" true),
         [NetCall.loginCookieFetch, NetCall.loginPost, NetCall.loginInfoFetch]⟩) := by
  constructor
  · intro h
    cases email with
    | none => rfl
    | some e =>
      cases password with
      | none => rfl
      | some p =>
        rcases h with h | h <;> exact absurd h (by simp)
  · intro e p he hp
    subst he
    subst hp
    cases hli : loggedInOf resp <;> simp [loginStep, hli]

theorem claim_C10_witness :
    loginStep none (some "pw") (Json.obj []) = ⟨Except.ok (), []⟩ ∧
    loginStep (some "e") (some "pw") (Json.obj [("message", Json.obj [("login", Json.bool false)])]) =
      ⟨Except.error (PyError.extractorError "Unable to log in" true),
       [NetCall.loginCookieFetch, NetCall.loginPost, NetCall.loginInfoFetch]⟩ :=
  ⟨(claim_C10 none (some "pw") (Json.obj [])).1 (Or.inl rfl),
   by
    have h := (claim_C10 (some "e") (some "pw")
      (Json.obj [("message", Json.obj [("login", Json.bool false)])])).2 "e" "pw" rfl rfl
    simpa using h⟩

/-- A page text embedding one marker assignment of the given JSON text, as
the video pages of the site carry it. -/
def mkMarkerPage (jsonText : String) : String :=
  ">window.__PRELOADED_STATE__=" ++ jsonText ++ "</script>"

/-- C7: for every raw page text in which the preload-state marker pattern
does not appear exactly once as a well-formed JSON object assignment, the
Page State Parser fails with a ParseError naming the missing field
"preload state" — and a whole single-video extraction on such a page fails
the same way after the page fetch alone; when the marker is present exactly
once and well-formed, the parser returns the parsed document (it is a pure
function: no side effects). -/
theorem claim_C7 (w : String) :
    (markerParsed w = none →
      getPreloadState w = Except.error (PyError.parseError "preload state")) ∧
    (∀ j, markerParsed w = some j → getPreloadState w = Except.ok j) ∧
    (∀ (inp : Inputs) (vid : String), inp.webpage = w → markerParsed w = none →
      (realExtract inp vid).res = Except.error (PyError.parseError "preload state") ∧
      (realExtract inp vid).calls = [NetCall.pageFetch vid]) := by
  refine ⟨fun h => by simp [getPreloadState, h],
    fun j h => by simp [getPreloadState, h],
    fun inp vid hw h => ?_⟩
  have hpre : preBodyE inp.webpage = Except.error (PyError.parseError "preload state") := by
    simp [preBodyE, getPreloadState, hw, h]
  constructor <;> simp [realExtract, hpre]

theorem claim_C7_witness :
    getPreloadState (mkMarkerPage "\x7b\"a\":1\x7d") =
      Except.ok (Json.obj [("a", Json.num 1)]) ∧
    getPreloadState "a page without any marker" =
      Except.error (PyError.parseError "preload state") :=
  ⟨(claim_C7 (mkMarkerPage "\x7b\"a\":1\x7d")).2.1 (Json.obj [("a", Json.num 1)]) rfl,
   (claim_C7 "a page without any marker").1 rfl⟩

theorem getFieldE_error_shape {j : Json} {k : String} {e : PyError}
    (h : getFieldE j k = Except.error e) :
    e = PyError.keyError k ∨ e = PyError.typeError := by
  unfold getFieldE at h
  split at h
  · split at h
    · simp at h
    · exact Or.inl (by injection h with h2; rw [← h2])
  · exact Or.inr (by injection h with h2; rw [← h2])

/-- C4: replay resolution never proceeds when the key-fetch response lacks
the key field: on every run whose page preliminaries succeed with a
non-LIVE type (so the key fetch happens) and whose key response parses to a
document on which the `inkey` subscript fails, the extraction fails with
that subscript error — a ParseError in the spec's taxonomy — after exactly
the page fetch and the key fetch, and the format-extraction collaborator is
never invoked. -/
theorem claim_C4 (inp : Inputs) (vid : String) (pj u t kj : Json) (err : PyError)
    (hpre : preBodyE inp.webpage = Except.ok (pj, u, t))
    (hL : jeq t "LIVE" = false)
    (hkj : parseJson inp.keyResponse = some kj)
    (hnk : getFieldE kj "inkey" = Except.error err) :
    (realExtract inp vid).res = Except.error err ∧
    isParseError err = true ∧
    (realExtract inp vid).calls = [NetCall.pageFetch vid, NetCall.keyFetch vid] ∧
    NetCall.formatExtract vid ∉ (realExtract inp vid).calls := by
  have hkb : keyBodyE inp.keyResponse vid = Except.error err := by
    simp [keyBodyE, parseJsonE, hkj, hnk]
  have hre : realExtract inp vid =
      ⟨Except.error err, [NetCall.pageFetch vid, NetCall.keyFetch vid]⟩ := by
    simp [realExtract, hpre, hL, hkb]
  refine ⟨by rw [hre], ?_, by rw [hre], by rw [hre]; simp⟩
  rcases getFieldE_error_shape hnk with h | h <;> simp [h, isParseError]

/-- The embedded page-state text of a plain VOD video, used by concrete
runs below. -/
def vodJsonText : String :=
  "\x7b\"postDetail\":\x7b\"post\":\x7b\"title\":\"T\",\"officialVideo\":\x7b\"upcomingYn\":false,\"type\":\"VOD\",\"thumb\":\"th\",\"vodId\":\"LONG\"\x7d\x7d\x7d,\"channel\":\x7b\"channel\":\x7b\"channelName\":\"C\"\x7d\x7d\x7d"

/-- The parsed form of `vodJsonText`. -/
def vodPreload : Json :=
  Json.obj [("postDetail", Json.obj [("post", Json.obj
    [("title", Json.str "T"),
     ("officialVideo", Json.obj
       [("upcomingYn", Json.bool false), ("type", Json.str "VOD"),
        ("thumb", Json.str "th"), ("vodId", Json.str "LONG")])])]),
   ("channel", Json.obj [("channel", Json.obj [("channelName", Json.str "C")])])]

/-- A VOD run whose key endpoint answers with a document lacking `inkey`. -/
def vodNoKeyInputs : Inputs :=
  ⟨mkMarkerPage vodJsonText, "\x7b\"foo\": 1\x7d", "", fun _ => none, [], []⟩

set_option maxRecDepth 100000 in
theorem claim_C4_witness :
    (realExtract vodNoKeyInputs "9").res = Except.error (PyError.keyError "inkey") ∧
    isParseError (PyError.keyError "inkey") = true ∧
    NetCall.formatExtract "9" ∉ (realExtract vodNoKeyInputs "9").calls := by
  have h := claim_C4 vodNoKeyInputs "9" vodPreload (Json.bool false) (Json.str "VOD")
    (Json.obj [("foo", Json.num 1)]) (PyError.keyError "inkey") rfl rfl rfl rfl
  exact ⟨h.1, h.2.1, h.2.2.2⟩

theorem insertFormat_perm (f : Format) (l : List Format) :
    (insertFormat f l).Perm (f :: l) := by
  induction l with
  | nil => exact List.Perm.refl _
  | cons g rest ih =>
    unfold insertFormat
    split
    · exact List.Perm.refl _
    · exact (List.Perm.cons g ih).trans (List.Perm.swap f g rest)

theorem sortFormats_perm (l : List Format) : (sortFormats l).Perm l := by
  induction l with
  | nil => exact List.Perm.refl _
  | cons f rest ih =>
    exact (insertFormat_perm f (sortFormats rest)).trans (List.Perm.cons f ih)

/-- The service URLs of a list of stream entries, defined exactly when every
entry subscripts to a string `serviceUrl` (the condition under which no
entry fails fatally inside the aggregation loop). -/
def urlsOfEntries : List Json → Option (List String)
  | [] => some []
  | e :: rest =>
    match getFieldE e "serviceUrl" with
    | Except.ok (Json.str u) =>
      match urlsOfEntries rest with
      | some us => some (u :: us)
      | none => none
    | _ => none

/-- The concatenation, in page order, of the format lists the manifest
expander yields per service URL; a failed entry contributes the empty
list. -/
def flatFormats (m : String → Option (List Format)) (urls : List String) :
    List Format :=
  (urls.map (fun u => (m u).getD [])).flatten

theorem collectLiveFormatsE_eq (m : String → Option (List Format))
    {es : List Json} {urls : List String} (h : urlsOfEntries es = some urls) :
    collectLiveFormatsE m es = Except.ok (flatFormats m urls) := by
  induction es generalizing urls with
  | nil =>
    unfold urlsOfEntries at h
    injection h with h2
    subst h2
    rfl
  | cons e rest ih =>
    unfold urlsOfEntries at h
    split at h
    · next u heq =>
      cases hrest : urlsOfEntries rest with
      | none => rw [hrest] at h; cases h
      | some us =>
        rw [hrest] at h
        injection h with h2
        subst h2
        unfold collectLiveFormatsE
        rw [heq, ih hrest]
        rfl
    · cases h

theorem flatFormats_nil_of_all_fail {m : String → Option (List Format)}
    {urls : List String} (h : ∀ u ∈ urls, m u = none) :
    flatFormats m urls = [] := by
  induction urls with
  | nil => rfl
  | cons u rest ih =>
    unfold flatFormats at ih ⊢
    simp only [List.map_cons, List.flatten_cons]
    rw [h u (by simp), ih (fun v hv => h v (by simp [hv]))]
    rfl

/-- C3: for every live resolution whose play-info response parses to a
stream-entry list (each entry carrying a string service URL), the strategy
returns a descriptor whose format list is exactly (up to the quality sort)
the concatenation of the formats of the successfully expanded entries —
entries whose manifest expansion fails contribute nothing and never make
the call raise — and when every entry fails the descriptor still comes back
with an empty format list rather than an error. -/
theorem claim_C3 (inp : Inputs) (vid : String) (preload lj r : Json)
    (es : List Json) (urls : List String) (cf : CommonFields)
    (h1 : parseJson inp.liveResponse = some lj)
    (h2 : getFieldE lj "result" = Except.ok r)
    (h3 : pyDictGetE r "streamList" (Json.arr []) = Except.ok (Json.arr es))
    (h4 : urlsOfEntries es = some urls)
    (h5 : commonFieldsE preload = Except.ok cf) :
    liveExtract inp vid preload =
      ⟨Except.ok ⟨vid, cf.title, cf.creator, cf.thumb,
        sortFormats (flatFormats inp.m3u8 urls), true, []⟩,
       [NetCall.liveFetch vid]⟩ ∧
    (sortFormats (flatFormats inp.m3u8 urls)).Perm (flatFormats inp.m3u8 urls) ∧
    ((∀ u ∈ urls, inp.m3u8 u = none) →
      sortFormats (flatFormats inp.m3u8 urls) = []) := by
  have hbody : liveBodyE inp vid preload =
      Except.ok ⟨vid, cf.title, cf.creator, cf.thumb,
        sortFormats (flatFormats inp.m3u8 urls), true, []⟩ := by
    unfold liveBodyE
    simp [parseJsonE, h1, h2, h3, expectArrE, collectLiveFormatsE_eq inp.m3u8 h4, h5]
  refine ⟨?_, sortFormats_perm _, ?_⟩
  · show W.bind (W.call (NetCall.liveFetch vid)) (fun _ => liftE (liveBodyE inp vid preload)) = _
    rw [hbody]
    rfl
  · intro hall
    rw [flatFormats_nil_of_all_fail hall]
    rfl

/-- A three-entry live play-info response used by concrete runs below. -/
def liveResponseText : String :=
  "\x7b\"result\":\x7b\"streamList\":[\x7b\"serviceUrl\":\"a\"\x7d,\x7b\"serviceUrl\":\"b\"\x7d,\x7b\"serviceUrl\":\"c\"\x7d]\x7d\x7d"

/-- The parsed form of `liveResponseText`. -/
def liveResponseJson : Json :=
  Json.obj [("result", Json.obj [("streamList", Json.arr
    [Json.obj [("serviceUrl", Json.str "a")],
     Json.obj [("serviceUrl", Json.str "b")],
     Json.obj [("serviceUrl", Json.str "c")]])])]

/-- A live run over three stream entries of which the middle one fails to
expand. -/
def liveRunInputs : Inputs :=
  ⟨"", "", liveResponseText,
   fun u => if u = "a" then some [⟨"fa", 100⟩]
     else if u = "c" then some [⟨"fc1", 300⟩, ⟨"fc2", 200⟩] else none,
   [], []⟩

set_option maxRecDepth 100000 in
theorem claim_C3_witness :
    liveExtract liveRunInputs "7" vodPreload =
      ⟨Except.ok ⟨"7", "[V LIVE] T", Json.str "C", Json.str "th",
        sortFormats (flatFormats liveRunInputs.m3u8 ["a", "b", "c"]), true, []⟩,
       [NetCall.liveFetch "7"]⟩ ∧
    sortFormats (flatFormats liveRunInputs.m3u8 ["a", "b", "c"]) =
      [⟨"fa", 100⟩, ⟨"fc2", 200⟩, ⟨"fc1", 300⟩] :=
  ⟨(claim_C3 liveRunInputs "7" vodPreload liveResponseJson
      (Json.obj [("streamList", Json.arr
        [Json.obj [("serviceUrl", Json.str "a")],
         Json.obj [("serviceUrl", Json.str "b")],
         Json.obj [("serviceUrl", Json.str "c")]])])
      [Json.obj [("serviceUrl", Json.str "a")],
       Json.obj [("serviceUrl", Json.str "b")],
       Json.obj [("serviceUrl", Json.str "c")]]
      ["a", "b", "c"] ⟨"[V LIVE] T", Json.str "C", Json.str "th"⟩
      rfl rfl rfl rfl rfl).1,
   by rfl⟩

/-- The embedded page-state text of a canceled broadcast. -/
def canceledJsonText : String :=
  "\x7b\"postDetail\":\x7b\"post\":\x7b\"officialVideo\":\x7b\"upcomingYn\":false,\"type\":\"CANCELED\"\x7d\x7d\x7d\x7d"

/-- A run over a canceled broadcast whose key endpoint would answer
normally. -/
def canceledInputs : Inputs :=
  ⟨mkMarkerPage canceledJsonText, "\x7b\"inkey\": \"k\"\x7d", "", fun _ => none, [], []⟩

set_option maxRecDepth 100000 in
/-- C2 counterexample: a run over a canceled broadcast — a status in the
claim's terminal-error set, as the two membership computations and the
raised terminal error show — nevertheless fetches the decryption key once,
contradicting "for every run whose resolved status is in the terminal-error
set, the key fetch never occurs". -/
theorem claim_C2_counterexample :
    jmem (resolveStatus (Json.str "CANCELED") (Json.bool false)) liveStatuses = false ∧
    jmem (resolveStatus (Json.str "CANCELED") (Json.bool false)) vodStatuses = false ∧
    (realExtract canceledInputs "123").res =
      Except.error (PyError.extractorError
        "We are sorry, but the live broadcast has been canceled." true) ∧
    (realExtract canceledInputs "123").calls =
      [NetCall.pageFetch "123", NetCall.keyFetch "123"] ∧
    countKey (realExtract canceledInputs "123").calls = 1 :=
  ⟨rfl, rfl, rfl, rfl, rfl⟩

theorem liveExtract_calls (inp : Inputs) (vid : String) (pj : Json) :
    (liveExtract inp vid pj).calls = [NetCall.liveFetch vid] := rfl

theorem replayExtract_eq_ok {pj : Json} {cf : CommonFields}
    (h : replayBodyE pj = Except.ok cf) (inp : Inputs) (vid : String) (k : Json) :
    replayExtract inp vid pj k =
      ⟨Except.ok (replayDescriptor inp vid cf), [NetCall.formatExtract vid]⟩ := by
  simp [replayExtract, h]

theorem replayExtract_eq_err {pj : Json} {e : PyError}
    (h : replayBodyE pj = Except.error e) (inp : Inputs) (vid : String) (k : Json) :
    replayExtract inp vid pj k = ⟨Except.error e, []⟩ := by
  simp [replayExtract, h]

/-- C2 amended: on every single-video run the decryption key is fetched at
most once — exactly once whenever the page preliminaries succeed with a
type field other than the string LIVE (which includes the terminal-error
runs with such types), and never otherwise — and every invocation of the
format-extraction collaborator is preceded in the trace by a key fetch. -/
theorem claim_C2_amended (inp : Inputs) (vid : String) :
    countKey (realExtract inp vid).calls = (if keyFetchExpected inp then 1 else 0) ∧
    keyBefore false (realExtract inp vid).calls = true := by
  unfold keyFetchExpected
  cases hpre : preBodyE inp.webpage with
  | error e =>
    constructor <;>
      simp [realExtract, hpre, countKey, keyBefore, isKeyFetch, isFormatCall]
  | ok pre =>
    obtain ⟨pj, u, t⟩ := pre
    cases hL : jeq t "LIVE" with
    | true =>
      cases hm1 : jmem (resolveStatus t u) liveStatuses with
      | true =>
        constructor <;>
          simp [realExtract, hpre, hL, hm1, liveExtract_calls,
            countKey, keyBefore, isKeyFetch, isFormatCall]
      | false =>
        cases hm2 : jmem (resolveStatus t u) vodStatuses with
        | true =>
          constructor <;>
            simp [realExtract, hpre, hL, hm1, hm2,
              countKey, keyBefore, isKeyFetch, isFormatCall]
        | false =>
          constructor <;>
            simp [realExtract, hpre, hL, hm1, hm2,
              countKey, keyBefore, isKeyFetch, isFormatCall]
    | false =>
      cases hk : keyBodyE inp.keyResponse vid with
      | error e =>
        constructor <;>
          simp [realExtract, hpre, hL, hk,
            countKey, keyBefore, isKeyFetch, isFormatCall]
      | ok k =>
        cases hm1 : jmem (resolveStatus t u) liveStatuses with
        | true =>
          constructor <;>
            simp [realExtract, hpre, hL, hk, hm1, liveExtract_calls,
              countKey, keyBefore, isKeyFetch, isFormatCall]
        | false =>
          cases hm2 : jmem (resolveStatus t u) vodStatuses with
          | true =>
            rcases hr : replayBodyE pj with e2 | cf
            · constructor <;>
                simp [realExtract, hpre, hL, hk, hm1, hm2,
                  replayExtract_eq_err hr,
                  countKey, keyBefore, isKeyFetch, isFormatCall]
            · constructor <;>
                simp [realExtract, hpre, hL, hk, hm1, hm2,
                  replayExtract_eq_ok hr,
                  countKey, keyBefore, isKeyFetch, isFormatCall]
          | false =>
            constructor <;>
              simp [realExtract, hpre, hL, hk, hm1, hm2,
                countKey, keyBefore, isKeyFetch, isFormatCall]

/-- Every status tag with a dedicated dispatch arm in the source: the Live
group, the Replay group, and the five terminal tags. -/
def knownStatusTags : List String :=
  liveStatuses ++ vodStatuses ++
    ["LIVE_END", "COMING_SOON", "UPCOMING", "CANCELED", "ONLY_APP"]

/-- C8: every resolved status in the terminal-error set makes resolution
raise the error of the dispatch table — LIVE_END the replay-not-yet-ready
message, COMING_SOON and UPCOMING the not-yet-started message, CANCELED the
broadcast-canceled message, ONLY_APP the unsupported-delivery message — and
any status tag outside all known groups raises an error surfacing the
unknown tag itself; the final conjunct ties the table to the extraction
pipeline: whenever the preliminaries resolve a status outside the Live and
Replay groups (and the key step, if reached, does not fail first), the run
fails with exactly the table's error for that status. -/
theorem claim_C8 :
    terminalError (Json.str "LIVE_END") =
      PyError.extractorError "Uploading for replay. Please wait..." true ∧
    terminalError (Json.str "COMING_SOON") =
      PyError.extractorError "Coming soon!" true ∧
    terminalError (Json.str "UPCOMING") =
      PyError.extractorError "Coming soon!" true ∧
    terminalError (Json.str "CANCELED") =
      PyError.extractorError
        "We are sorry, but the live broadcast has been canceled." true ∧
    terminalError (Json.str "ONLY_APP") =
      PyError.extractorError "Unsupported video type" true ∧
    (∀ s : String, s ∉ knownStatusTags →
      terminalError (Json.str s) =
        PyError.extractorError ("Unknown status " ++ s) false) ∧
    (∀ (inp : Inputs) (vid : String) (pj u t : Json),
      preBodyE inp.webpage = Except.ok (pj, u, t) →
      jmem (resolveStatus t u) liveStatuses = false →
      jmem (resolveStatus t u) vodStatuses = false →
      (jeq t "LIVE" = true ∨ ∃ k, keyBodyE inp.keyResponse vid = Except.ok k) →
      (realExtract inp vid).res =
        Except.error (terminalError (resolveStatus t u))) := by
  refine ⟨rfl, rfl, rfl, rfl, rfl, ?_, ?_⟩
  · intro s hs
    have h1 : s ≠ "LIVE_END" := fun h => hs (by simp [knownStatusTags, h])
    have h2 : s ≠ "COMING_SOON" := fun h => hs (by simp [knownStatusTags, h])
    have h3 : s ≠ "UPCOMING" := fun h => hs (by simp [knownStatusTags, h])
    have h4 : s ≠ "CANCELED" := fun h => hs (by simp [knownStatusTags, h])
    have h5 : s ≠ "ONLY_APP" := fun h => hs (by simp [knownStatusTags, h])
    simp [terminalError, jmem, jeq_str_false h1, jeq_str_false h2,
      jeq_str_false h3, jeq_str_false h4, jeq_str_false h5, pyStr]
  · intro inp vid pj u t hpre hm1 hm2 hkey
    cases hL : jeq t "LIVE" with
    | true => simp [realExtract, hpre, hL, hm1, hm2]
    | false =>
      rcases hkey with hkey | ⟨k, hk⟩
      · rw [hL] at hkey
        cases hkey
      · simp [realExtract, hpre, hL, hk, hm1, hm2]

/-- The parsed form of `canceledJsonText`. -/
def canceledPreload : Json :=
  Json.obj [("postDetail", Json.obj [("post", Json.obj
    [("officialVideo", Json.obj
      [("upcomingYn", Json.bool false), ("type", Json.str "CANCELED")])])])]

set_option maxRecDepth 100000 in
theorem claim_C8_witness :
    (realExtract canceledInputs "123").res =
      Except.error
        (terminalError (resolveStatus (Json.str "CANCELED") (Json.bool false))) :=
  claim_C8.2.2.2.2.2.2 canceledInputs "123" canceledPreload
    (Json.bool false) (Json.str "CANCELED") rfl rfl rfl
    (Or.inr ⟨Json.str "k", rfl⟩)

/-- A channel-video-list response page carrying the given video ids. -/
def mkChanPage (ids : List Int) : Json :=
  Json.obj [("result", Json.obj [("videoList",
    Json.arr (ids.map (fun i => Json.obj [("videoSeq", Json.num i)])))])]

/-- A mocked two-page channel: page 1 holds ids 1..100, page 2 holds ids
101..137, and every later page has no video list. -/
def pages137 : Nat → Json :=
  fun n =>
    if n = 1 then mkChanPage ((List.range 100).map (fun i => (i : Int) + 1))
    else if n = 2 then mkChanPage ((List.range 37).map (fun i => (i : Int) + 101))
    else Json.obj [("result", Json.obj [])]

/-- The 137 entries of the mocked channel, in first-page-then-second-page
order. -/
def expected137 : List UrlResult :=
  (List.range 137).map (fun i => mkVideoUrlResult (toString ((i : Int) + 1)))

set_option maxRecDepth 1000000 in
/-- C6: channel-listing pagination terminates as soon as a fetched page's
video list is empty or absent — whenever some page within the remaining
fuel is empty the loop returns (a per-item Python exception can only abort
it even earlier), and a loop step on an empty page returns immediately with
the entries gathered so far — and on a mocked channel of 100 then 37 items
it yields exactly the 137 entries in first-page-then-second-page order. -/
theorem claim_C6 :
    (∀ (pages : Nat → Json) (fuel pageNum : Nat) (chName : Option String)
        (acc : List UrlResult),
      (∃ i, i < fuel ∧ isEmptyPage (pages (pageNum + i)) = true) →
      (channelLoop pages fuel pageNum chName acc).isSome = true) ∧
    (∀ (pages : Nat → Json) (fuel pageNum : Nat) (chName : Option String)
        (acc : List UrlResult),
      isEmptyPage (pages pageNum) = true →
      channelLoop pages (fuel + 1) pageNum chName acc =
        some (Except.ok ((if truthyName chName then chName
          else tryGetChannelName (pages pageNum)), acc))) ∧
    channelLoop pages137 3 1 none [] = some (Except.ok (none, expected137)) := by
  refine ⟨?_, ?_, by decide⟩
  · intro pages fuel
    induction fuel with
    | zero =>
      rintro pageNum chName acc ⟨i, hi, he⟩
      exact absurd hi (Nat.not_lt_zero i)
    | succ fuel ih =>
      rintro pageNum chName acc ⟨i, hi, he⟩
      cases hvl : tryGetVideoList (pages pageNum) with
      | none => simp [channelLoop, hvl]
      | some vs =>
        cases vs with
        | nil => simp [channelLoop, hvl]
        | cons v rest =>
          have hne : isEmptyPage (pages pageNum) = false := by
            simp [isEmptyPage, hvl]
          cases hpv : processVideosE (v :: rest) with
          | error e => simp [channelLoop, hvl, hpv]
          | ok newEntries =>
          cases i with
          | zero =>
            rw [Nat.add_zero] at he
            rw [he] at hne
            cases hne
          | succ j =>
            have hstep : channelLoop pages (fuel + 1) pageNum chName acc =
                channelLoop pages fuel (pageNum + 1)
                  (if truthyName chName then chName
                    else tryGetChannelName (pages pageNum))
                  (acc ++ newEntries) := by
              simp [channelLoop, hvl, hpv]
            rw [hstep]
            apply ih
            refine ⟨j, Nat.lt_of_succ_lt_succ hi, ?_⟩
            have harith : pageNum + 1 + j = pageNum + (j + 1) := by omega
            rw [harith]
            exact he
  · intro pages fuel pageNum chName acc h
    unfold isEmptyPage at h
    cases hvl : tryGetVideoList (pages pageNum) with
    | none => simp [channelLoop, hvl]
    | some vs =>
      cases vs with
      | nil => simp [channelLoop, hvl]
      | cons v rest =>
        rw [hvl] at h
        cases h

theorem claim_C6_witness :
    (channelLoop pages137 3 1 none []).isSome = true :=
  claim_C6.1 pages137 3 1 none [] ⟨2, by decide, by decide⟩
